import Mathlib

/-!
Verification of the file.d pipeline core against its natural-language
specification.  The definitions below are a shallow embedding of the Go
sources: pipeline/pipeline.go (intake, stream routing, commit/finalize,
stop sequence, processor growth, maintenance, admin HTTP handlers),
plugin/output/splunk/splunk.go (batched flush with retry) and
plugin/output/file/file.go (batched flush to a local file).

External collaborators that are not part of the sources (the insane-json
parser, the cri/postgres decoders, the event pool's sequence counter, the
antispam verdict, the streamer's queue internals) enter the model as
parameters: the claims under study depend only on how pipeline.go reacts
to their results, never on their internals.
-/

namespace FileD

/-- Decoder selector, mirroring the constants of the decoder package that
pipeline.go switches on (NO, AUTO, JSON, RAW, CRI, POSTGRES). -/
inductive DecoderType
  | no
  | auto
  | json
  | raw
  | cri
  | postgres
deriving DecidableEq

/-- Decoder selection at the top of Pipeline.In: a configured AUTO decoder
is replaced by the input plugin's suggestion, and if the result is still
NO the pipeline falls back to JSON. -/
def selectDecoder (configured suggested : DecoderType) : DecoderType :=
  let dec := if configured = DecoderType.auto then suggested else configured
  if dec = DecoderType.no then DecoderType.json else dec

/-- Value stored in a field of a parsed document: either a string node or a
byte node (MutateToBytesCopy stores raw bytes). -/
inductive FieldValue
  | str (s : String)
  | bytes (b : List Nat)
deriving DecidableEq

/-- Node.AsString of the insane-json tree: string nodes yield their string,
byte nodes their bytes read as characters. -/
def FieldValue.asString : FieldValue → String
  | FieldValue.str s => s
  | FieldValue.bytes b => String.mk (b.map Char.ofNat)

/-- A parsed document root: a flat object mapping field names to values.
This is the fragment of the insane-json tree that pipeline.go touches
(Dig on a top-level field, AddField of a top-level field). -/
structure Node where
  fields : List (String × FieldValue)
deriving DecidableEq

/-- Root.Dig(field): the value of a top-level field, if present. -/
def Node.dig (n : Node) (f : String) : Option FieldValue :=
  (n.fields.find? (fun p => p.1 == f)).map Prod.snd

/-- The RAW decoder branch of Pipeline.In: decode an empty object and add a
single field "message" holding bytes[0 : len(bytes)-1] (the final byte is
cut off, MutateToBytesCopy receives bytes[:len(bytes)-1]). -/
def rawDecode (bytes : List Nat) : Node :=
  Node.mk [("message", FieldValue.bytes bytes.dropLast)]

/-- Event kinds (event.go): normal events plus the timeout and unlocked
service kinds. -/
inductive EventKind
  | normal
  | timeout
  | unlocked
deriving DecidableEq

/-- The pipeline event: parsed document root plus routing metadata, as
stamped by Pipeline.In.  SeqID is assigned outside pipeline.go (by the
event pool at checkout), so the model carries it as data. -/
structure Event where
  root : Node
  seqID : Nat
  sourceID : Nat
  sourceName : String
  offset : Int
  size : Nat
  streamName : String
  kind : EventKind
deriving DecidableEq

/-- Event.IsTimeoutKind. -/
def Event.isTimeoutKind (e : Event) : Bool :=
  e.kind == EventKind.timeout

/-- The pipeline flags and settings that streamEvent reads: useSpread,
disableStreams, the processor count (as the uint64 it is converted to) and
the configured stream field. -/
structure StreamSettings where
  useSpread : Bool
  disableStreams : Bool
  procCount : Nat
  streamField : String
deriving DecidableEq

/-- Pipeline.streamEvent: under useSpread the source id is overridden with
seqID mod procCount; unless streams are disabled the stream name is
overridden with the string value of the configured stream field when that
field exists.  The returned event is the one handed to streamer.putEvent. -/
def streamEvent (s : StreamSettings) (event : Event) : Event :=
  let event := if s.useSpread then
    { event with sourceID := event.seqID % s.procCount }
  else event
  if !s.disableStreams then
    match event.root.dig s.streamField with
    | some node => { event with streamName := node.asString }
    | none => event
  else event

/-- The pipeline settings and decoder state that Pipeline.In reads. -/
structure InSettings where
  decoder : DecoderType
  suggestedDecoder : DecoderType
  isStrict : Bool
  stream : StreamSettings
deriving DecidableEq

/-- Results of the external decode calls on the current input bytes:
event.parseJSON (insane-json), decoder.DecodeCRI and
decoder.DecodePostgres.  none models a decode error. -/
structure DecodeEnv where
  jsonResult : Option Node
  criResult : Option Node
  postgresResult : Option Node
deriving DecidableEq

/-- Observable outcome of one Pipeline.In call: the returned uint64,
whether the process aborted (logger.Fatalf or logger.Panicf), how many
events were checked out of and released back to the event pool, how many
errors were logged, the event handed to the streamer (if any) and whether
the input sample was captured. -/
structure InResult where
  ret : Nat
  aborted : Bool
  poolGets : Nat
  poolBacks : Nat
  errorLogs : Nat
  enqueued : Option Event
  sampledInput : Bool
deriving DecidableEq

/-- The emptiness check of Pipeline.In: length == 0, or a single newline
byte. -/
def isEmptyInput (bytes : List Nat) : Bool :=
  bytes.length == 0 || (bytes.head? == some 10 && bytes.length == 1)

/-- Pipeline.In.  Inputs beyond the Go signature: isSpam is the
antispamer's verdict, inSampleLen the current length of the input sample
buffer, and seqID the sequence id the pool stamped on the checked-out
event — all owned by code outside pipeline.go.  The body mirrors the
source line by line: emptiness/spam test before pool checkout, decoder
selection, the per-decoder decode with its error handling (strictness is
consulted only in the JSON branch; the CRI and POSTGRES branches call
logger.Fatalf unconditionally, and the default branch calls
logger.Panicf), metadata stamping with the default stream name "not_set",
input-sample capture, and the hand-off to streamEvent. -/
def pipelineIn (cfg : InSettings) (env : DecodeEnv) (isSpam : Bool)
    (inSampleLen : Nat) (seqID : Nat) (sourceID : Nat) (sourceName : String)
    (offset : Int) (bytes : List Nat) : InResult :=
  if isEmptyInput bytes || isSpam then
    InResult.mk 0 false 0 0 0 none false
  else
    let dec := selectDecoder cfg.decoder cfg.suggestedDecoder
    let stamp : Node → InResult := fun root =>
      let event := Event.mk root seqID sourceID sourceName offset
        bytes.length "not_set" EventKind.normal
      let sampled := inSampleLen == 0
      let event := streamEvent cfg.stream event
      InResult.mk event.seqID false 1 0 0 (some event) sampled
    match dec with
    | DecoderType.json =>
      match env.jsonResult with
      | none =>
        if cfg.isStrict then InResult.mk 0 true 1 0 0 none false
        else InResult.mk 0 false 1 0 1 none false
      | some root => stamp root
    | DecoderType.raw => stamp (rawDecode bytes)
    | DecoderType.cri =>
      match env.criResult with
      | none => InResult.mk 0 true 1 0 0 none false
      | some root => stamp root
    | DecoderType.postgres =>
      match env.postgresResult with
      | none => InResult.mk 0 true 1 0 0 none false
      | some root => stamp root
    | _ => InResult.mk 0 true 1 0 0 none false

/-- The pipeline-controller state touched by finalize: the atomic counters,
the debug fields, and counts of the calls it makes into the input plugin,
the stream and the event pool. -/
structure PipeState where
  totalCommitted : Int
  totalSize : Int
  maxSize : Nat
  outSampleLen : Nat
  eventLogEnabled : Bool
  eventLogLen : Nat
  inputCommits : Nat
  streamCommits : Nat
  poolBacks : Nat
deriving DecidableEq

/-- Pipeline.finalize.  randOdd models rand.Int()&1 == 1.  Timeout-kind
events return immediately; otherwise with notifyInput the input plugin's
Commit runs and totalCommitted/totalSize/outSample/maxSize are updated;
the stream is committed; and with backEvent the event-log append (when
enabled) and the release to the event pool run. -/
def finalize (randOdd : Bool) (st : PipeState) (event : Event)
    (notifyInput backEvent : Bool) : PipeState :=
  if event.isTimeoutKind then st
  else
    let st := if notifyInput then
      let st := { st with
        inputCommits := st.inputCommits + 1,
        totalCommitted := st.totalCommitted + 1,
        totalSize := st.totalSize + Int.ofNat event.size }
      let st := if st.outSampleLen == 0 && randOdd then
        { st with outSampleLen := 1 } else st
      if event.size > st.maxSize then { st with maxSize := event.size } else st
    else st
    let st := { st with streamCommits := st.streamCommits + 1 }
    if !backEvent then st
    else
      let st := if st.eventLogEnabled then
        { st with eventLogLen := st.eventLogLen + 1 } else st
      { st with poolBacks := st.poolBacks + 1 }

/-- Pipeline.Commit (the OutputPluginController surface): finalize with
notifyInput and backEvent both set. -/
def pipelineCommit (randOdd : Bool) (st : PipeState) (event : Event) : PipeState :=
  finalize randOdd st event true true

/-- One observable step of Pipeline.Stop, in execution order. -/
inductive StopAction
  | stopProcessor (i : Nat)
  | stopStreamer
  | stopInput
  | stopOutput
  | setShouldStop
deriving DecidableEq

/-- The for-loop of Pipeline.Stop over p.Procs, stopping each processor in
slice order. -/
def stopProcessors : List Nat → List StopAction
  | [] => []
  | i :: rest => StopAction.stopProcessor i :: stopProcessors rest

/-- Pipeline.Stop as the ordered trace of its effects: stop every
processor, then the streamer, then the input plugin, then the output
plugin, and finally set shouldStop. -/
def pipelineStop (procs : List Nat) : List StopAction :=
  stopProcessors procs ++
    [StopAction.stopStreamer, StopAction.stopInput,
     StopAction.stopOutput, StopAction.setShouldStop]

/-- Two's-complement int32 arithmetic: reduce an integer modulo 2^32 into
the interval [-2^31, 2^31).  procCount is an atomic.Int32 in the source. -/
def int32 (x : Int) : Int :=
  (x + 2 ^ 31) % 2 ^ 32 - 2 ^ 31

/-- Observable outcome of Pipeline.expandProcs: the value stored back into
procCount, the number of processors spawned by the for-loop, and whether
the too-many-processors warning was logged. -/
structure ExpandResult where
  procCount : Int
  spawned : Nat
  warned : Bool
deriving DecidableEq

/-- Pipeline.expandProcs: a no-op under singleProc; otherwise the target is
from*2 (int32 arithmetic), a target above 10000 only logs a warning, the
loop spawns int(to-from) processors (none when that is negative), and
procCount is swapped to the target. -/
def expandProcs (singleProc : Bool) (fromCount : Int) : ExpandResult :=
  if singleProc then ExpandResult.mk fromCount 0 false
  else
    let toCount := int32 (fromCount * 2)
    let warned := decide (toCount > 10000)
    let spawned := (int32 (toCount - fromCount)).toNat
    ExpandResult.mk toCount spawned warned

/-- State of the growProcs supervisor loop: the shared counters plus the
number of 100 ms intervals since the reset instant t was last moved
(time.Now().Sub(t) measured in whole intervals). -/
structure GrowState where
  procCount : Int
  activeProcs : Int
  sinceReset : Nat
deriving DecidableEq

/-- One iteration of Pipeline.growProcs after its 100 ms sleep: exit when
shouldStop is set; reset t whenever procCount differs from activeProcs;
expand once the time since the reset exceeds one interval. -/
def growTick (shouldStop singleProc : Bool) (st : GrowState) : Option GrowState :=
  if shouldStop then none
  else
    let sinceReset := if st.procCount ≠ st.activeProcs then 0 else st.sinceReset + 1
    if sinceReset > 1 then
      let r := expandProcs singleProc st.procCount
      some (GrowState.mk r.procCount st.activeProcs sinceReset)
    else
      some (GrowState.mk st.procCount st.activeProcs sinceReset)

/-- The loop-local state of Pipeline.maintenance. -/
structure MaintState where
  lastCommitted : Int
  lastSize : Int
deriving DecidableEq

/-- One iteration of Pipeline.maintenance after its sleep: exit when
shouldStop is set; otherwise tick the collaborators, log the stats line and
remember the current totals for the next delta. -/
def maintenanceTick (shouldStop : Bool) (totalCommitted totalSize : Int)
    (_st : MaintState) : Option MaintState :=
  if shouldStop then none
  else some (MaintState.mk totalCommitted totalSize)

/-- The retry loop of the splunk output's flush function (Plugin.out): the
batch is encoded into outBuf once, then the same payload is posted until a
send succeeds, sleeping one second after every failure.  The argument list
gives the outcome of each successive send attempt; the result records the
payload posted on every attempt made, whether the loop has returned, and
the seconds slept.  An empty oracle means every attempt so far failed and
the loop is still running. -/
def splunkOutLoop (payload : List Nat) : List Bool → List (List Nat) × Bool × Nat
  | [] => ([], false, 0)
  | ok :: rest =>
    if ok then ([payload], true, 0)
    else
      let r := splunkOutLoop payload rest
      (payload :: r.1, r.2.1, r.2.2 + 1)

/-- Result of the file.Write call inside the file output's write helper. -/
inductive WriteOutcome
  | ok (n : Nat)
  | err
deriving DecidableEq

/-- What the file output's flush path does with the write result. -/
inductive FileWriteResult
  | wrote
  | fatalAbort
deriving DecidableEq

/-- The file output plugin's write helper: any write error is fatal
(logger.Fatalf aborts the process); there is no retry. -/
def fileWrite (r : WriteOutcome) : FileWriteResult :=
  match r with
  | WriteOutcome.ok _ => FileWriteResult.wrote
  | WriteOutcome.err => FileWriteResult.fatalAbort

/-- An http.ResponseWriter with Go's net/http semantics: the first Write
implicitly sends status 200 if WriteHeader has not run yet, and any
WriteHeader after the status has been sent is superfluous and ignored. -/
structure ResponseWriter where
  headers : List (String × String)
  status : Option Nat
  body : String
deriving DecidableEq

/-- Header().Add(key, value). -/
def ResponseWriter.addHeader (w : ResponseWriter) (k v : String) : ResponseWriter :=
  { w with headers := w.headers ++ [(k, v)] }

/-- ResponseWriter.Write: commits status 200 when no status has been sent,
then appends to the body. -/
def ResponseWriter.write (w : ResponseWriter) (chunk : String) : ResponseWriter :=
  match w.status with
  | none => ResponseWriter.mk w.headers (some 200) (w.body ++ chunk)
  | some _ => { w with body := w.body ++ chunk }

/-- ResponseWriter.WriteHeader: sets the status only if none has been sent
yet; a later call is ignored by net/http. -/
def ResponseWriter.writeHeader (w : ResponseWriter) (code : Nat) : ResponseWriter :=
  match w.status with
  | none => { w with status := some code }
  | some _ => w

/-- json.Marshal of the ErrResp struct in writeErr. -/
def errResp (msg : String) : String :=
  "\x7b\"error\":\"" ++ msg ++ "\"\x7d"

/-- pipeline.writeErr: marshal the error into the response body. -/
def writeErr (w : ResponseWriter) (msg : String) : ResponseWriter :=
  w.write (errResp msg)

/-- The error message of serveActionInfo for a missing metric name. -/
def infoNoMetricMsg : String :=
  "If you want to see a statistic about events, consider adding `metric_name` to the action's configuration."

/-- The error message of serveActionSample when no processors are active. -/
def sampleNoProcsMsg : String :=
  "There are no active processors"

/-- The error message of serveActionSample on rendezvous timeout. -/
def sampleTimeoutMsg : String :=
  "Timeout while try to display an event before and after the action processing."

/-- Pipeline.serveActionInfo: set the content type; with no metric name
configured write the error JSON and then call WriteHeader(400); otherwise
write the marshaled per-status counters (supplied here as eventsJSON, the
metrics holder lives outside pipeline.go). -/
def serveActionInfo (metricName : String) (eventsJSON : String)
    (w : ResponseWriter) : ResponseWriter :=
  let w := w.addHeader "Content-Type" "application/json"
  if metricName == "" then
    let w := writeErr w infoNoMetricMsg
    w.writeHeader 400
  else
    w.write eventsJSON

/-- Pipeline.serveActionSample: set the content type; with no active or
target processors write the error JSON and then call WriteHeader(400);
otherwise either write the first sample that arrives or, on timeout, write
the error JSON and then call WriteHeader(500). -/
def serveActionSample (activeProcs procCount : Int)
    (sampleResult : Option String) (w : ResponseWriter) : ResponseWriter :=
  let w := w.addHeader "Content-Type" "application/json"
  if activeProcs ≤ 0 ∨ procCount ≤ 0 then
    (writeErr w sampleNoProcsMsg).writeHeader 400
  else
    match sampleResult with
    | some s => w.write s
    | none => (writeErr w sampleTimeoutMsg).writeHeader 500

/-- streamEvent never touches the parsed document root. -/
lemma streamEvent_root (s : StreamSettings) (e : Event) :
    (streamEvent s e).root = e.root := by
  unfold streamEvent
  cases hu : s.useSpread <;> cases hd : s.disableStreams <;>
    simp [hu, hd] <;> split <;> rfl

/-- streamEvent never touches the sequence id. -/
lemma streamEvent_seqID (s : StreamSettings) (e : Event) :
    (streamEvent s e).seqID = e.seqID := by
  unfold streamEvent
  cases hu : s.useSpread <;> cases hd : s.disableStreams <;>
    simp [hu, hd] <;> split <;> rfl

/-- The stream name chosen by streamEvent: untouched when streams are
disabled, otherwise the string value of the stream field when present. -/
lemma streamEvent_streamName (s : StreamSettings) (e : Event) :
    (streamEvent s e).streamName =
      (if s.disableStreams then e.streamName
       else
         match e.root.dig s.streamField with
         | some v => v.asString
         | none => e.streamName) := by
  unfold streamEvent
  cases hu : s.useSpread <;> cases hd : s.disableStreams <;>
    simp [hu, hd] <;> split <;> rfl

/-- The source id chosen by streamEvent: the spread override when
useSpread is on, untouched otherwise. -/
lemma streamEvent_sourceID (s : StreamSettings) (e : Event) :
    (streamEvent s e).sourceID =
      (if s.useSpread then e.seqID % s.procCount else e.sourceID) := by
  unfold streamEvent
  cases hu : s.useSpread <;> cases hd : s.disableStreams <;>
    simp [hu, hd] <;> split <;> rfl

/-- Claim C1 (amended): a decode failure in Pipeline.In is handled
according to strictness only for the json decoder — strict aborts, else
the error is logged and the record dropped with In returning 0, nothing
enqueued and the checked-out event not returned; for the cri and postgres
decoders a decode failure aborts fatally regardless of IsStrict. -/
theorem c1_decode_error_strictness (cfg : InSettings) (env : DecodeEnv)
    (isl seqID sourceID : Nat) (sn : String) (off : Int) (bytes : List Nat)
    (hne : isEmptyInput bytes = false) :
    (selectDecoder cfg.decoder cfg.suggestedDecoder = DecoderType.json →
      env.jsonResult = none →
      pipelineIn cfg env false isl seqID sourceID sn off bytes =
        (if cfg.isStrict then InResult.mk 0 true 1 0 0 none false
         else InResult.mk 0 false 1 0 1 none false)) ∧
    (selectDecoder cfg.decoder cfg.suggestedDecoder = DecoderType.cri →
      env.criResult = none →
      pipelineIn cfg env false isl seqID sourceID sn off bytes =
        InResult.mk 0 true 1 0 0 none false) ∧
    (selectDecoder cfg.decoder cfg.suggestedDecoder = DecoderType.postgres →
      env.postgresResult = none →
      pipelineIn cfg env false isl seqID sourceID sn off bytes =
        InResult.mk 0 true 1 0 0 none false) := by
  refine ⟨?_, ?_, ?_⟩ <;> intro hdec hres <;>
    simp [pipelineIn, hne, hdec, hres]

/-- Claim C1 witness: the amended statement applied to a json pipeline in
non-strict mode on the input bytes of "not". -/
theorem c1_witness :
    isEmptyInput [110, 111, 116] = false ∧
    ((selectDecoder DecoderType.json DecoderType.no = DecoderType.json →
        (DecodeEnv.mk none none none).jsonResult = none →
        pipelineIn
            (InSettings.mk DecoderType.json DecoderType.no false
              (StreamSettings.mk false false 4 "stream"))
            (DecodeEnv.mk none none none) false 0 7 1 "source" 0
            [110, 111, 116] =
          InResult.mk 0 false 1 0 1 none false) ∧
      (selectDecoder DecoderType.json DecoderType.no = DecoderType.cri →
        (DecodeEnv.mk none none none).criResult = none →
        pipelineIn
            (InSettings.mk DecoderType.json DecoderType.no false
              (StreamSettings.mk false false 4 "stream"))
            (DecodeEnv.mk none none none) false 0 7 1 "source" 0
            [110, 111, 116] =
          InResult.mk 0 true 1 0 0 none false) ∧
      (selectDecoder DecoderType.json DecoderType.no = DecoderType.postgres →
        (DecodeEnv.mk none none none).postgresResult = none →
        pipelineIn
            (InSettings.mk DecoderType.json DecoderType.no false
              (StreamSettings.mk false false 4 "stream"))
            (DecodeEnv.mk none none none) false 0 7 1 "source" 0
            [110, 111, 116] =
          InResult.mk 0 true 1 0 0 none false)) :=
  ⟨rfl,
    c1_decode_error_strictness
      (InSettings.mk DecoderType.json DecoderType.no false
        (StreamSettings.mk false false 4 "stream"))
      (DecodeEnv.mk none none none) 0 7 1 "source" 0 [110, 111, 116] rfl⟩

/-- Claim C1 counterexample: with the cri decoder and IsStrict unset, a
decode failure still aborts the process instead of being logged and
dropped, so strictness is not consulted for the cri decoder. -/
theorem c1_counterexample :
    (pipelineIn
        (InSettings.mk DecoderType.cri DecoderType.no false
          (StreamSettings.mk false false 4 "stream"))
        (DecodeEnv.mk none none none) false 0 7 1 "source" 0 [97]).aborted
      = true := by
  rfl

/-- Claim C10: a json decode failure in non-strict mode makes In return 0
with the checked-out event never released back to the pool (one get and no
back), so each such failure permanently costs the pool one free event. -/
theorem c10_json_fail_pool_leak (cfg : InSettings) (env : DecodeEnv)
    (isl seqID sourceID : Nat) (sn : String) (off : Int) (bytes : List Nat)
    (hne : isEmptyInput bytes = false)
    (hdec : selectDecoder cfg.decoder cfg.suggestedDecoder = DecoderType.json)
    (hstrict : cfg.isStrict = false)
    (hjson : env.jsonResult = none) :
    pipelineIn cfg env false isl seqID sourceID sn off bytes =
      InResult.mk 0 false 1 0 1 none false := by
  simp [pipelineIn, hne, hdec, hjson, hstrict]

/-- Claim C10 witness: the leak evaluated on the concrete non-json input
bytes of "no". -/
theorem c10_witness :
    isEmptyInput [110, 111] = false ∧
    selectDecoder DecoderType.json DecoderType.no = DecoderType.json ∧
    pipelineIn
        (InSettings.mk DecoderType.json DecoderType.no false
          (StreamSettings.mk false false 4 "stream"))
        (DecodeEnv.mk none none none) false 0 7 1 "source" 0 [110, 111] =
      InResult.mk 0 false 1 0 1 none false :=
  ⟨rfl, rfl,
    c10_json_fail_pool_leak
      (InSettings.mk DecoderType.json DecoderType.no false
        (StreamSettings.mk false false 4 "stream"))
      (DecodeEnv.mk none none none) 0 7 1 "source" 0 [110, 111]
      rfl rfl rfl rfl⟩

/-- Claim C8 (amended): the raw decoder wraps the input in a fresh object
whose single field "message" holds the record's bytes with the final byte
removed (the code stores bytes[0 : len(bytes)-1], cutting the trailing
newline byte). -/
theorem c8_raw_wraps_message (cfg : InSettings) (env : DecodeEnv)
    (isl seqID sourceID : Nat) (sn : String) (off : Int) (bytes : List Nat)
    (hne : isEmptyInput bytes = false)
    (hdec : selectDecoder cfg.decoder cfg.suggestedDecoder = DecoderType.raw) :
    ∃ e, (pipelineIn cfg env false isl seqID sourceID sn off bytes).enqueued
        = some e ∧
      e.root = Node.mk [("message", FieldValue.bytes bytes.dropLast)] := by
  refine ⟨streamEvent cfg.stream
    (Event.mk (rawDecode bytes) seqID sourceID sn off bytes.length "not_set"
      EventKind.normal), ?_, ?_⟩
  · simp [pipelineIn, hne, hdec]
  · rw [streamEvent_root]
    rfl

/-- Claim C8 witness: the raw path evaluated on the two bytes "a\n". -/
theorem c8_witness :
    isEmptyInput [97, 10] = false ∧
    selectDecoder DecoderType.raw DecoderType.no = DecoderType.raw ∧
    (∃ e, (pipelineIn
          (InSettings.mk DecoderType.raw DecoderType.no false
            (StreamSettings.mk false false 4 "stream"))
          (DecodeEnv.mk none none none) false 0 7 1 "source" 0
          [97, 10]).enqueued = some e ∧
      e.root = Node.mk [("message", FieldValue.bytes [97, 10].dropLast)]) :=
  ⟨rfl, rfl,
    c8_raw_wraps_message
      (InSettings.mk DecoderType.raw DecoderType.no false
        (StreamSettings.mk false false 4 "stream"))
      (DecodeEnv.mk none none none) 0 7 1 "source" 0 [97, 10] rfl rfl⟩

/-- Claim C8 counterexample: for the record "ab" the raw decoder does not
store the record's bytes — the final byte is cut off. -/
theorem c8_counterexample :
    (rawDecode [97, 98]).dig "message" ≠ some (FieldValue.bytes [97, 98]) ∧
    (rawDecode [97, 98]).dig "message" = some (FieldValue.bytes [97]) := by
  constructor
  · decide
  · rfl

/-- Claim C2: committing a normal-kind event through the controller's
Commit invokes the input plugin's Commit once, increments totalCommitted
by exactly one, adds the event's size to totalSize, and releases the
event back to the pool. -/
theorem c2_commit_normal (randOdd : Bool) (st : PipeState) (e : Event)
    (h : e.kind = EventKind.normal) :
    (pipelineCommit randOdd st e).inputCommits = st.inputCommits + 1 ∧
    (pipelineCommit randOdd st e).totalCommitted = st.totalCommitted + 1 ∧
    (pipelineCommit randOdd st e).totalSize = st.totalSize + Int.ofNat e.size ∧
    (pipelineCommit randOdd st e).poolBacks = st.poolBacks + 1 := by
  unfold pipelineCommit finalize
  simp [Event.isTimeoutKind, h]
  split <;> split <;> split <;> simp

/-- Claim C2 witness: Commit on a concrete normal event over a concrete
controller state. -/
theorem c2_witness :
    (Event.mk (Node.mk []) 1 2 "src" 0 5 "not_set" EventKind.normal).kind
        = EventKind.normal ∧
    ((pipelineCommit false (PipeState.mk 0 0 0 0 false 0 0 0 0)
          (Event.mk (Node.mk []) 1 2 "src" 0 5 "not_set"
            EventKind.normal)).inputCommits = 0 + 1 ∧
      (pipelineCommit false (PipeState.mk 0 0 0 0 false 0 0 0 0)
          (Event.mk (Node.mk []) 1 2 "src" 0 5 "not_set"
            EventKind.normal)).totalCommitted = 0 + 1 ∧
      (pipelineCommit false (PipeState.mk 0 0 0 0 false 0 0 0 0)
          (Event.mk (Node.mk []) 1 2 "src" 0 5 "not_set"
            EventKind.normal)).totalSize = 0 + Int.ofNat 5 ∧
      (pipelineCommit false (PipeState.mk 0 0 0 0 false 0 0 0 0)
          (Event.mk (Node.mk []) 1 2 "src" 0 5 "not_set"
            EventKind.normal)).poolBacks = 0 + 1) :=
  ⟨rfl,
    c2_commit_normal false (PipeState.mk 0 0 0 0 false 0 0 0 0)
      (Event.mk (Node.mk []) 1 2 "src" 0 5 "not_set" EventKind.normal) rfl⟩

/-- Claim C3: with streams enabled the enqueued event's stream name is the
string value of the configured StreamField when the document carries it
and the default "not_set" otherwise; with DisableStreams set the stream
field is not consulted and the event keeps the default name. -/
theorem c3_stream_field_naming (cfg : InSettings) (env : DecodeEnv)
    (root : Node) (isl seqID sourceID : Nat) (sn : String) (off : Int)
    (bytes : List Nat)
    (hne : isEmptyInput bytes = false)
    (hdec : selectDecoder cfg.decoder cfg.suggestedDecoder = DecoderType.json)
    (hjson : env.jsonResult = some root) :
    ∃ e, (pipelineIn cfg env false isl seqID sourceID sn off bytes).enqueued
        = some e ∧
      e.streamName =
        (if cfg.stream.disableStreams then "not_set"
         else
           match root.dig cfg.stream.streamField with
           | some v => v.asString
           | none => "not_set") := by
  refine ⟨streamEvent cfg.stream
    (Event.mk root seqID sourceID sn off bytes.length "not_set"
      EventKind.normal), ?_, ?_⟩
  · simp [pipelineIn, hne, hdec, hjson]
  · rw [streamEvent_streamName]

/-- Claim C3 witness: a document with a "stream" field named "stdout",
routed with streams enabled. -/
theorem c3_witness :
    isEmptyInput [49] = false ∧
    selectDecoder DecoderType.json DecoderType.no = DecoderType.json ∧
    (DecodeEnv.mk (some (Node.mk [("stream", FieldValue.str "stdout")]))
        none none).jsonResult
      = some (Node.mk [("stream", FieldValue.str "stdout")]) ∧
    (∃ e, (pipelineIn
          (InSettings.mk DecoderType.json DecoderType.no false
            (StreamSettings.mk false false 4 "stream"))
          (DecodeEnv.mk (some (Node.mk [("stream", FieldValue.str "stdout")]))
            none none) false 0 7 1 "source" 0 [49]).enqueued = some e ∧
      e.streamName =
        (if (StreamSettings.mk false false 4 "stream").disableStreams
          then "not_set"
         else
           match (Node.mk [("stream", FieldValue.str "stdout")]).dig
               (StreamSettings.mk false false 4 "stream").streamField with
           | some v => v.asString
           | none => "not_set")) :=
  ⟨rfl, rfl, rfl,
    c3_stream_field_naming
      (InSettings.mk DecoderType.json DecoderType.no false
        (StreamSettings.mk false false 4 "stream"))
      (DecodeEnv.mk (some (Node.mk [("stream", FieldValue.str "stdout")]))
        none none)
      (Node.mk [("stream", FieldValue.str "stdout")])
      0 7 1 "source" 0 [49] rfl rfl rfl⟩

/-- Claim C4: with UseSpread enabled, streamEvent overrides the event's
source id with its sequence id modulo procCount before handing the event
to the stream registry (the sequence id itself is untouched).  The
positivity hypothesis records that procCount is never zero while the
pipeline runs; the Go modulo would panic there. -/
theorem c4_spread_overrides_source (s : StreamSettings) (e : Event)
    (hs : s.useSpread = true) (hpc : 0 < s.procCount) :
    (streamEvent s e).sourceID = e.seqID % s.procCount ∧
    (streamEvent s e).seqID = e.seqID := by
  refine ⟨?_, streamEvent_seqID s e⟩
  rw [streamEvent_sourceID, hs]
  simp

/-- Claim C4 witness: spread routing of a concrete event with sequence id
9 over 4 processors lands on source id 1. -/
theorem c4_witness :
    (StreamSettings.mk true false 4 "stream").useSpread = true ∧
    0 < (StreamSettings.mk true false 4 "stream").procCount ∧
    ((streamEvent (StreamSettings.mk true false 4 "stream")
          (Event.mk (Node.mk []) 9 2 "src" 0 5 "not_set"
            EventKind.normal)).sourceID
        = (Event.mk (Node.mk []) 9 2 "src" 0 5 "not_set"
            EventKind.normal).seqID %
          (StreamSettings.mk true false 4 "stream").procCount ∧
      (streamEvent (StreamSettings.mk true false 4 "stream")
          (Event.mk (Node.mk []) 9 2 "src" 0 5 "not_set"
            EventKind.normal)).seqID
        = (Event.mk (Node.mk []) 9 2 "src" 0 5 "not_set"
            EventKind.normal).seqID) :=
  ⟨rfl, by decide,
    c4_spread_overrides_source (StreamSettings.mk true false 4 "stream")
      (Event.mk (Node.mk []) 9 2 "src" 0 5 "not_set" EventKind.normal)
      rfl (by decide)⟩

/-- int32 arithmetic is the identity inside the representable range. -/
lemma int32_eq_self (x : Int) (h1 : -(2 ^ 31) ≤ x) (h2 : x < 2 ^ 31) :
    int32 x = x := by
  unfold int32
  omega

/-- Claim C5 (amended): while procCount stays below 2^30 (no int32
overflow) an expansion step exactly doubles procCount, never decreases it,
spawns exactly procCount new processors, and a target above 10000 only
raises the warning flag without aborting or capping the spawn; under
singleProc expansion is a no-op; the growth loop exits once the stop flag
is set, resets its timer whenever active differs from target, and expands
only after the counts have stayed equal for more than one 100 ms
interval.  At procCount = 2^30 the int32 doubling overflows and the
stored count becomes negative, which is the one shrink the code admits. -/
theorem c5_growth_monotone (singleProc : Bool) (st : GrowState) (pc : Int)
    (h0 : 0 ≤ pc) (hlt : pc < 2 ^ 30) :
    (expandProcs false pc).procCount = pc * 2 ∧
    pc ≤ (expandProcs false pc).procCount ∧
    (expandProcs false pc).spawned = pc.toNat ∧
    (expandProcs false pc).warned = decide (pc * 2 > 10000) ∧
    expandProcs true pc = ExpandResult.mk pc 0 false ∧
    growTick true singleProc st = none ∧
    (st.procCount ≠ st.activeProcs →
      growTick false singleProc st =
        some (GrowState.mk st.procCount st.activeProcs 0)) ∧
    (st.procCount = st.activeProcs → st.sinceReset = 0 →
      growTick false singleProc st =
        some (GrowState.mk st.procCount st.activeProcs 1)) ∧
    (st.procCount = st.activeProcs → 1 ≤ st.sinceReset →
      growTick false singleProc st =
        some (GrowState.mk (expandProcs singleProc st.procCount).procCount
          st.activeProcs (st.sinceReset + 1))) := by
  have hdouble : int32 (pc * 2) = pc * 2 := by
    apply int32_eq_self <;> omega
  have hdiff : int32 (pc * 2 - pc) = pc := by
    have heq : pc * 2 - pc = pc := by ring
    rw [heq]
    apply int32_eq_self <;> omega
  refine ⟨?_, ?_, ?_, ?_, ?_, ?_, ?_, ?_, ?_⟩
  · simp [expandProcs, hdouble]
  · simp [expandProcs, hdouble]
    omega
  · simp [expandProcs, hdouble, hdiff]
  · simp [expandProcs, hdouble]
  · rfl
  · rfl
  · intro hne
    simp [growTick, hne]
  · intro heq hz
    simp [growTick, heq, hz]
  · intro heq hge
    have hgt : st.sinceReset + 1 > 1 := by omega
    simp [growTick, heq, hgt]

/-- Claim C5 witness: an expansion step and the growth-loop transitions
evaluated at procCount 8 with a saturated fleet of 4. -/
theorem c5_witness :
    (0 : Int) ≤ 8 ∧ (8 : Int) < 2 ^ 30 ∧
    ((expandProcs false 8).procCount = 8 * 2 ∧
      (8 : Int) ≤ (expandProcs false 8).procCount ∧
      (expandProcs false 8).spawned = (8 : Int).toNat ∧
      (expandProcs false 8).warned = decide ((8 : Int) * 2 > 10000) ∧
      expandProcs true 8 = ExpandResult.mk 8 0 false ∧
      growTick true false (GrowState.mk 4 4 1) = none ∧
      ((GrowState.mk 4 4 1).procCount ≠ (GrowState.mk 4 4 1).activeProcs →
        growTick false false (GrowState.mk 4 4 1) =
          some (GrowState.mk (GrowState.mk 4 4 1).procCount
            (GrowState.mk 4 4 1).activeProcs 0)) ∧
      ((GrowState.mk 4 4 1).procCount = (GrowState.mk 4 4 1).activeProcs →
        (GrowState.mk 4 4 1).sinceReset = 0 →
        growTick false false (GrowState.mk 4 4 1) =
          some (GrowState.mk (GrowState.mk 4 4 1).procCount
            (GrowState.mk 4 4 1).activeProcs 1)) ∧
      ((GrowState.mk 4 4 1).procCount = (GrowState.mk 4 4 1).activeProcs →
        1 ≤ (GrowState.mk 4 4 1).sinceReset →
        growTick false false (GrowState.mk 4 4 1) =
          some (GrowState.mk
            (expandProcs false (GrowState.mk 4 4 1).procCount).procCount
            (GrowState.mk 4 4 1).activeProcs
            ((GrowState.mk 4 4 1).sinceReset + 1)))) :=
  ⟨by decide, by decide,
    c5_growth_monotone false (GrowState.mk 4 4 1) 8 (by decide) (by decide)⟩

/-- Claim C5 counterexample: at procCount = 2^30 the doubling overflows
int32 and the stored processor count drops to -2^31, so procCount is not
monotone as claimed. -/
theorem c5_counterexample :
    (expandProcs false (2 ^ 30)).procCount = -(2 ^ 31) ∧
    (expandProcs false (2 ^ 30)).procCount < 2 ^ 30 := by
  constructor
  · norm_num [expandProcs, int32]
  · norm_num [expandProcs, int32]

/-- A run of the splunk flush loop in which every send fails posts the
same payload on every attempt, sleeps one second after each failure, and
never returns. -/
lemma splunkOutLoop_all_fail (payload : List Nat) :
    ∀ n, splunkOutLoop payload (List.replicate n false) =
      (List.replicate n payload, false, n) := by
  intro n
  induction n with
  | zero => rfl
  | succ k ih => simp [List.replicate_succ, splunkOutLoop, ih]

/-- A run of the splunk flush loop whose first success comes after n
failures posts the same payload n+1 times, sleeps n seconds, and returns
without surfacing any failure. -/
lemma splunkOutLoop_fail_then_ok (payload : List Nat) :
    ∀ n, splunkOutLoop payload (List.replicate n false ++ [true]) =
      (List.replicate (n + 1) payload, true, n) := by
  intro n
  induction n with
  | zero => rfl
  | succ k ih => simp [List.replicate_succ, splunkOutLoop, ih]

/-- Claim C6 (amended): the splunk output's flush retries the same batch
payload indefinitely with a one-second back-off and returns only after a
successful send, surfacing no failure; the file output's flush instead
aborts the process fatally on a write error and never retries. -/
theorem c6_flush_failure_handling (payload : List Nat) (n : Nat) :
    splunkOutLoop payload (List.replicate n false) =
      (List.replicate n payload, false, n) ∧
    splunkOutLoop payload (List.replicate n false ++ [true]) =
      (List.replicate (n + 1) payload, true, n) ∧
    fileWrite WriteOutcome.err = FileWriteResult.fatalAbort ∧
    (∀ m, fileWrite (WriteOutcome.ok m) = FileWriteResult.wrote) :=
  ⟨splunkOutLoop_all_fail payload n, splunkOutLoop_fail_then_ok payload n,
    rfl, fun _ => rfl⟩

/-- Claim C6 counterexample: a failed write in the file output is fatal —
the flush path aborts instead of retrying with back-off, so the claim is
false for the file output plugin. -/
theorem c6_counterexample :
    fileWrite WriteOutcome.err = FileWriteResult.fatalAbort ∧
    FileWriteResult.fatalAbort ≠ FileWriteResult.wrote := by
  decide

/-- The Stop loop over the processor slice is a map in slice order. -/
lemma stopProcessors_eq_map :
    ∀ l : List Nat, stopProcessors l = l.map StopAction.stopProcessor := by
  intro l
  induction l with
  | nil => rfl
  | cons i rest ih => simp [stopProcessors, ih]

/-- Claim C7 (amended): Stop stops the workers first, then the stream
registry, then the input plugin, then the output plugin, and sets the
stop flag as its last action (not its first); the maintenance and growth
loops observe the flag and exit. -/
theorem c7_stop_order (procs : List Nat) :
    pipelineStop procs =
      procs.map StopAction.stopProcessor ++
        [StopAction.stopStreamer, StopAction.stopInput,
         StopAction.stopOutput, StopAction.setShouldStop] ∧
    (∃ pre, pipelineStop procs = pre ++ [StopAction.setShouldStop]) ∧
    (∀ (sp : Bool) (st : GrowState), growTick true sp st = none) ∧
    (∀ (tc ts : Int) (ms : MaintState), maintenanceTick true tc ts ms = none) := by
  refine ⟨?_, ?_, fun sp st => rfl, fun tc ts ms => rfl⟩
  · unfold pipelineStop
    rw [stopProcessors_eq_map]
  · refine ⟨procs.map StopAction.stopProcessor ++
      [StopAction.stopStreamer, StopAction.stopInput,
       StopAction.stopOutput], ?_⟩
    unfold pipelineStop
    rw [stopProcessors_eq_map]
    simp

/-- Claim C7 counterexample: with one running processor the first action
of Stop is stopping that processor, not setting the stop flag, so the
flag is not set first. -/
theorem c7_counterexample :
    (pipelineStop [0]).head? ≠ some StopAction.setShouldStop ∧
    (pipelineStop [0]).head? = some (StopAction.stopProcessor 0) := by
  decide

/-- Claim C9: on every admin error path the handler writes the JSON error
body first and only then calls WriteHeader, which net/http ignores once
the body has been written — so the response carries the error JSON but
status 200, not the 4xx/5xx status the code intends. -/
theorem c9_admin_error_status :
    (serveActionInfo "" "[]" (ResponseWriter.mk [] none "")).status
        = some 200 ∧
    (serveActionInfo "" "[]" (ResponseWriter.mk [] none "")).body
        = errResp infoNoMetricMsg ∧
    (serveActionSample 0 4 none (ResponseWriter.mk [] none "")).status
        = some 200 ∧
    (serveActionSample 0 4 none (ResponseWriter.mk [] none "")).body
        = errResp sampleNoProcsMsg ∧
    (serveActionSample 4 4 none (ResponseWriter.mk [] none "")).status
        = some 200 ∧
    (serveActionSample 4 4 none (ResponseWriter.mk [] none "")).body
        = errResp sampleTimeoutMsg := by
  refine ⟨rfl, rfl, ?_, ?_, ?_, ?_⟩ <;> rfl

end FileD
